import Mathlib

/-!
Verification development for the syslog ingestion-and-forwarding pipeline
(`src/journal/journald-syslog.c`).

The C functions are embedded as pure Lean functions.  Machine state that the
C code mutates through the `Server` object (the loss counter
`n_forward_syslog_missed`, the lazily opened remote socket descriptor) is
passed in and returned explicitly.  Interactions with the operating system
(`sendmsg`, `socket`, `localtime_r`, `strftime`, `now`, process-name lookup)
are modelled as explicit oracle parameters: each call site receives the
outcome the OS would have produced, and the embedding records the resulting
control flow and the effects (attempt lists, log events) it causes.
-/

/-! ## Basic syslog.h constants used by the source -/

def LOG_PRIMASK : Nat := 7

/-- `LOG_PRI(p)` — the 3 low severity bits of a priority value. -/
def LOG_PRI (p : Nat) : Nat := p &&& LOG_PRIMASK

def LOG_FACMASK : Nat := 0x3f8

/-- `LOG_FAC(p)` — the facility bits of a priority value, shifted down. -/
def LOG_FAC (p : Nat) : Nat := (p &&& LOG_FACMASK) >>> 3

def USEC_PER_SEC : Nat := 1000000

/-- `#define WARN_FORWARD_SYSLOG_MISSED_USEC (30 * USEC_PER_SEC)` -/
def WARN_FORWARD_SYSLOG_MISSED_USEC : Nat := 30 * USEC_PER_SEC

/-! ## Whitespace scanning (`strspn`/`strcspn` with `WHITESPACE`)

`WHITESPACE` is the systemd character set `" \t\n\r"`.  C strings are
modelled as `List Char` (NUL-free byte sequences; end of list = NUL). -/

def WHITESPACE : List Char := [' ', '\t', '\n', '\r']

def isWhite (c : Char) : Bool := c ∈ WHITESPACE

/-- `strspn(p, WHITESPACE)`: length of the leading whitespace run. -/
def strspn_ws (p : List Char) : Nat := (p.takeWhile isWhite).length

/-- `strcspn(p, WHITESPACE)`: length of the leading non-whitespace run. -/
def strcspn_ws (p : List Char) : Nat := (p.takeWhile (fun c => !(isWhite c))).length

/-! ## `syslog_skip_date` (journald-syslog.c:348) -/

inductive DateClass
  | LETTER
  | SPACE
  | NUMBER
  | SPACE_OR_NUMBER
  | COLON
deriving DecidableEq, Repr

/-- The `sequence[]` array of `syslog_skip_date`. -/
def date_sequence : List DateClass :=
  [.LETTER, .LETTER, .LETTER,
   .SPACE,
   .SPACE_OR_NUMBER, .NUMBER,
   .SPACE,
   .SPACE_OR_NUMBER, .NUMBER,
   .COLON,
   .SPACE_OR_NUMBER, .NUMBER,
   .COLON,
   .SPACE_OR_NUMBER, .NUMBER,
   .SPACE]

/-- The per-position character test of the `switch` in `syslog_skip_date`.
`SPACE_OR_NUMBER` falls through to `NUMBER` when the character is not a
space, exactly as in the C. -/
def matches_class (c : Char) : DateClass → Bool
  | .SPACE => c = ' '
  | .SPACE_OR_NUMBER => c = ' ' || ('0' ≤ c && c ≤ '9')
  | .NUMBER => '0' ≤ c && c ≤ '9'
  | .LETTER => ('A' ≤ c && c ≤ 'Z') || ('a' ≤ c && c ≤ 'z')
  | .COLON => c = ':'

/-- The scanning loop of `syslog_skip_date`: `none` models the early
`return` paths (end of input `!*p`, or a class mismatch), in which the
caller's cursor is left untouched; `some p` models falling off the loop,
after which `*buf = p`. -/
def skip_date_loop : List DateClass → List Char → Option (List Char)
  | [], p => some p
  | _ :: _, [] => none
  | cl :: cls, c :: p => if matches_class c cl then skip_date_loop cls p else none

/-- `syslog_skip_date`: advance the cursor past a legacy date prefix, or
leave it unchanged. -/
def syslog_skip_date (buf : List Char) : List Char :=
  match skip_date_loop date_sequence buf with
  | some p => p
  | none => buf

/-- Spec-side characterization used to compare against the code: the input
starts with at least `date_sequence.length` characters, each matching its
class. -/
def date_prefix_matches (buf : List Char) : Bool :=
  decide (date_sequence.length ≤ buf.length) &&
    (date_sequence.zip buf).all fun cp => matches_class cp.2 cp.1

/-! ## Facility clamping (journald-syslog.c:185) -/

/-- The clamp applied by `syslog_fill_iovec`:
`if (sm->priority>>3>23) sm->priority = (sm->priority&7) + (23<<3);` -/
def clamp_facility (p : Nat) : Nat :=
  if p >>> 3 > 23 then (p &&& 7) + (23 <<< 3) else p

/-! ## Loss-warning throttle (`server_maybe_warn_forward_syslog_missed`) -/

structure WarnState where
  n_forward_syslog_missed : Nat
  last_warn_forward_syslog_missed : Nat
deriving DecidableEq, Repr

/-- `server_maybe_warn_forward_syslog_missed` (journald-syslog.c:563).
The second component is the diagnostic emitted via `server_driver_message`
(`some n` carries the counter value in the message), `none` when no
diagnostic fires.  `now` is the `CLOCK_MONOTONIC` reading in microseconds. -/
def server_maybe_warn_forward_syslog_missed (st : WarnState) (now : Nat) :
    WarnState × Option Nat :=
  if st.n_forward_syslog_missed = 0 then (st, none)
  else if st.last_warn_forward_syslog_missed + WARN_FORWARD_SYSLOG_MISSED_USEC > now then
    (st, none)
  else
    (⟨0, now⟩, some st.n_forward_syslog_missed)

/-! ## `syslog_parse_identifier` (journald-syslog.c:297) -/

structure ParseIdResult where
  /-- the cursor `*buf` after the call -/
  buf : List Char
  /-- `*identifier` (`none` = left unset) -/
  identifier : Option (List Char)
  /-- `*pid` (`none` = left unset) -/
  pid : Option (List Char)
  /-- the returned byte count `e` -/
  ret : Nat
deriving DecidableEq, Repr

/-- The backward scan `for (;;) { if (p[k] == '[') ...; if (k == 0) break; k--; }`
starting at index `k`: position of the nearest `'['` at or below `k`. -/
def find_open_bracket (p : List Char) : Nat → Option Nat
  | 0 => if p.getD 0 ' ' = '[' then some 0 else none
  | k + 1 =>
    if p.getD (k + 1) ' ' = '[' then some (k + 1) else find_open_bracket p k

/-- `syslog_parse_identifier`.  `strndup` is modelled as always succeeding
(on allocation failure the C leaves the output unset but is otherwise
unchanged).  One caveat: when the token is the single character `":"`,
the C reads `p[l-1]` with `l = 0`, i.e. the byte before the token; in
every execution where that byte exists it is whitespace (it was just
skipped over) and never `']'`, so the model resolves that read to
"not `']'`" via the `1 ≤ l` guard. -/
def syslog_parse_identifier (buf0 : List Char) : ParseIdResult :=
  let p := buf0.drop (strspn_ws buf0)
  let l := strcspn_ws p
  if l = 0 ∨ p.getD (l - 1) ' ' ≠ ':' then
    ⟨buf0, none, none, 0⟩
  else
    let e := l
    let l := l - 1
    let pl : Option (List Char) × Nat :=
      if 1 ≤ l ∧ p.getD (l - 1) ' ' = ']' then
        match find_open_bracket p (l - 1) with
        | some k => (some ((p.drop (k + 1)).take (l - k - 2)), k)
        | none => (none, l)
      else (none, l)
    let e2 := e + strspn_ws (p.drop e)
    ⟨p.drop e2, some (p.take pl.2), pl.1, e2⟩

/-! ## `SyslogMessage` and the RFC5424 synthesizer -/

/-- `SyslogMessage` (declared in journald-syslog.h).  The broken-down time
`struct tm` is opaque to this file (only ever produced by `localtime_r`
and consumed by `strftime`), so `timestamp` is an abstract token. -/
structure SyslogMessage where
  priority : Nat
  timestamp : Nat
  hostname : String
  appname : String
  /-- `procid`: `0` encodes "absent" (the C tests `if (sm->procid)`). -/
  procid : Nat
  msgid : String
  message : String
deriving DecidableEq, Repr

/-- An arbitrary stack value for a freshly declared `SyslogMessage sm;`
(fields not assigned by `syslog_init_message` are indeterminate in C and
are overwritten before use by every caller in this file). -/
def sm0 : SyslogMessage := ⟨0, 0, "", "", 0, "", ""⟩

/-- `syslog_init_message` (journald-syslog.c:223). -/
def syslog_init_message (sm : SyslogMessage) : SyslogMessage :=
  { sm with
    priority := 14
    procid := 0
    hostname := "-"
    appname := "-"
    msgid := "-"
    message := "-" }

/-- `syslog_fill_iovec` (journald-syslog.c:175).

`strftime_z` is the oracle for
`strftime(..., "%Y-%m-%dT%H:%M:%S%z ", &sm->timestamp)`: `none` models a
return value `<= 0` (rendering failed), `some t` a successful rendering
`t` (which then already carries its trailing space).

Returns `none` for the capacity error (`*n_iovec < MSG+1`, C return `-1`),
otherwise the mutated message (the clamp writes back into `sm->priority`)
together with the 10 iovec fragments, in order
`PRIVER, TIMESTAMP, HOSTNAME, SP_HOSTNAME, APPNAME, SP_APPNAME, PROCID,
MSGID, STRUDATA, MSG`; the C also sets `*n_iovec = 10` and returns it. -/
def syslog_fill_iovec (strftime_z : Nat → Option String)
    (sm : SyslogMessage) (n_iovec : Nat) :
    Option (SyslogMessage × List String) :=
  if n_iovec < 10 then none
  else
    let sm := { sm with priority := clamp_facility sm.priority }
    let priver := "<" ++ toString sm.priority ++ ">1 "
    let ts :=
      match strftime_z sm.timestamp with
      | none => "- "
      | some t => t
    let offset := if "_HOSTNAME=".isPrefixOf sm.hostname then 10 else 0
    let hostname := sm.hostname.drop offset
    let procid :=
      if sm.procid ≠ 0 then "[" ++ toString sm.procid ++ "]: " else "- "
    some (sm, [priver, ts, hostname, " ", sm.appname, " ", procid, sm.msgid,
               " - ", sm.message])

/-! ## Local relay forwarder (`forward_syslog_iovec`) -/

/-- `struct ucred` as attached via `SCM_CREDENTIALS`. -/
structure Ucred where
  pid : Nat
  uid : Nat
  gid : Nat
deriving DecidableEq, Repr

/-- The `errno` values the source distinguishes; `EOTHER` stands for any
other error code. -/
inductive Errno
  | EAGAIN
  | EPERM
  | ESRCH
  | ENOENT
  | EOTHER
deriving DecidableEq, Repr

/-- Outcome of one `sendmsg` call, supplied by the environment. -/
inductive SendResult
  | ok
  | err (e : Errno)
deriving DecidableEq, Repr

/-- What one call to `forward_syslog_iovec` did. -/
structure LocalForwardResult where
  /-- the loss counter `s->n_forward_syslog_missed` after the call -/
  n_forward_syslog_missed : Nat
  /-- credentials attached to each `sendmsg` attempt, in order -/
  attempts : List (Option Ucred)
  /-- whether `log_debug_errno("Failed to forward syslog message")` ran -/
  logged_debug : Bool
deriving DecidableEq, Repr

/-- `forward_syslog_iovec` (journald-syslog.c:41).  `daemon_pid` is
`getpid()`; `n_missed` the loss counter on entry; `r1`/`r2` the outcomes
the kernel gives the first and (if reached) second `sendmsg`.  The iovec
payload is passed through unmodified by the C and is omitted here. -/
def forward_syslog_iovec (daemon_pid : Nat) (n_missed : Nat)
    (ucred : Option Ucred) (r1 r2 : SendResult) : LocalForwardResult :=
  match r1 with
  | .ok => ⟨n_missed, [ucred], false⟩
  | .err e1 =>
    if e1 = .EAGAIN then ⟨n_missed + 1, [ucred], false⟩
    else
      match ucred with
      | some u =>
        if e1 = .ESRCH ∨ e1 = .EPERM then
          let u2 : Ucred := { u with pid := daemon_pid }
          match r2 with
          | .ok => ⟨n_missed, [some u, some u2], false⟩
          | .err e2 =>
            if e2 = .EAGAIN then ⟨n_missed + 1, [some u, some u2], false⟩
            else ⟨n_missed, [some u, some u2], decide (e2 ≠ .ENOENT)⟩
        else ⟨n_missed, [some u], decide (e1 ≠ .ENOENT)⟩
      | none => ⟨n_missed, [none], decide (e1 ≠ .ENOENT)⟩

/-- Iterated resource-exhausted sends: the counter after `n` consecutive
calls to `forward_syslog_iovec` whose (first) `sendmsg` fails `EAGAIN`. -/
def iterate_forward_eagain (daemon_pid : Nat) (ucred : Option Ucred)
    (r2 : SendResult) : Nat → Nat → Nat
  | 0, nm => nm
  | n + 1, nm =>
    iterate_forward_eagain daemon_pid ucred r2 n
      (forward_syslog_iovec daemon_pid nm ucred (.err .EAGAIN) r2).n_forward_syslog_missed

/-! ## Remote forwarder -/

def INADDR_NONE : Nat := 0xffffffff

def AF_INET : Nat := 2

/-- `s->remote_syslog_dest`, fixed by configuration. -/
structure RemoteConfig where
  /-- `in.sin_addr.s_addr` -/
  s_addr : Nat
  /-- `in.sin_family` -/
  sin_family : Nat
deriving DecidableEq, Repr

/-- Log events emitted by `maybe_open_remote_syslog`. -/
inductive RLog
  | warnTargetConfigured
  | warnNonAfInet
  | errSocketFailed
deriving DecidableEq, Repr

/-- `maybe_open_remote_syslog` (journald-syslog.c:115).  `remote_fd` is
`s->remote_syslog_fd` on entry (`0` = never opened); `sock` the outcome of
`socket(AF_INET, SOCK_DGRAM|SOCK_CLOEXEC|SOCK_NONBLOCK, 0)` (`none` = a
negative return).  Yields the updated `s->remote_syslog_fd`, the function's
return value, and the log events emitted. -/
def maybe_open_remote_syslog (cfg : RemoteConfig) (remote_fd : Nat)
    (sock : Option Nat) : Nat × Nat × List RLog :=
  if remote_fd > 0 then (remote_fd, remote_fd, [])
  else if cfg.s_addr = INADDR_NONE then (remote_fd, 0, [])
  else if cfg.sin_family ≠ AF_INET then
    (remote_fd, 0, [.warnTargetConfigured, .warnNonAfInet])
  else
    match sock with
    | none => (remote_fd, 0, [.warnTargetConfigured, .errSocketFailed])
    | some fd => (fd, fd, [.warnTargetConfigured])

/-- What one call to `forward_remote_syslog_iovec` did. -/
structure RemoteForwardResult where
  /-- `s->remote_syslog_fd` after the call -/
  remote_syslog_fd : Nat
  /-- the payload handed to `sendmsg`, if one was sent (its outcome is
  deliberately ignored by the C) -/
  sent : Option (List String)
  /-- log events emitted while lazily opening -/
  logs : List RLog
deriving DecidableEq, Repr

/-- `forward_remote_syslog_iovec` (journald-syslog.c:144). -/
def forward_remote_syslog_iovec (cfg : RemoteConfig) (remote_fd : Nat)
    (sock : Option Nat) (iovec : List String) : RemoteForwardResult :=
  let r := maybe_open_remote_syslog cfg remote_fd sock
  if r.2.1 = 0 then ⟨r.1, none, r.2.2⟩
  else ⟨r.1, some iovec, r.2.2⟩

/-- `n` consecutive calls to `forward_remote_syslog_iovec` threading the
socket handle: returns the final handle, the number of datagrams actually
sent, and the total number of log events emitted. -/
def iterate_remote_forward (cfg : RemoteConfig) (sock : Option Nat)
    (iovec : List String) : Nat → Nat → Nat × Nat × Nat
  | 0, fd => (fd, 0, 0)
  | n + 1, fd =>
    let r := forward_remote_syslog_iovec cfg fd sock iovec
    let rest := iterate_remote_forward cfg sock iovec n r.remote_syslog_fd
    (rest.1, (if r.sent.isSome then 1 else 0) + rest.2.1, r.logs.length + rest.2.2)

/-! ## Server-level forwarding -/

/-- The configuration slice of `Server` read by the functions in this file. -/
structure ServerConfig where
  max_level_syslog : Nat
  /-- `s->hostname_field` (empty string models `isempty` = true) -/
  hostname_field : String
  forward_to_syslog : Bool
  forward_to_remote_syslog : Bool
  forward_to_kmsg : Bool
  forward_to_console : Bool
  forward_to_wall : Bool
  /-- `getpid()` of the daemon -/
  daemon_pid : Nat
  remote : RemoteConfig
deriving DecidableEq, Repr

/-- `t = tv ? tv->tv_sec : ((time_t) (now(CLOCK_REALTIME) / USEC_PER_SEC));` -/
def time_of (tv : Option Nat) (now_realtime : Nat) : Nat :=
  match tv with
  | some sec => sec
  | none => now_realtime / USEC_PER_SEC

/-- What one call to `server_forward_syslog` did. -/
structure ServerForwardResult where
  /-- the RFC5424 scatter list built (`none` on any early return) -/
  iovec : Option (List String)
  /-- `some` iff `forward_syslog_iovec` was invoked -/
  local_send : Option LocalForwardResult
  /-- `some` iff `forward_remote_syslog_iovec` was invoked -/
  remote_send : Option RemoteForwardResult
deriving DecidableEq, Repr

/-- `server_forward_syslog` (journald-syslog.c:235).

Oracles: `localtime_r` for the `localtime_r(&t, &sm.timestamp)` call
(`none` = NULL return), `strftime_z` as in `syslog_fill_iovec`,
`get_process_comm` for the process-name lookup (`none` = lookup failed,
leaving `ident_buf` NULL), `r1`/`r2` the local `sendmsg` outcomes, `sock`
the remote `socket()` outcome.  `n_missed` and `remote_fd` are the server
state on entry; their values after the call are inside the `local_send` /
`remote_send` components (unchanged when those are `none`). -/
def server_forward_syslog (cfg : ServerConfig) (n_missed : Nat)
    (remote_fd : Nat) (priority : Nat) (identifier : Option String)
    (message : String) (ucred : Option Ucred) (tv : Option Nat)
    (now_realtime : Nat) (localtime_r : Nat → Option Nat)
    (strftime_z : Nat → Option String)
    (get_process_comm : Nat → Option String)
    (r1 r2 : SendResult) (sock : Option Nat) : ServerForwardResult :=
  if LOG_PRI priority > cfg.max_level_syslog then ⟨none, none, none⟩
  else
    let sm := syslog_init_message sm0
    let sm := { sm with priority := priority }
    match localtime_r (time_of tv now_realtime) with
    | none => ⟨none, none, none⟩
    | some tm =>
      let sm := { sm with timestamp := tm }
      let sm :=
        if cfg.hostname_field ≠ "" then { sm with hostname := cfg.hostname_field }
        else sm
      let ident2 : Option String :=
        match ucred, identifier with
        | some u, none => get_process_comm u.pid
        | _, _ => identifier
      let sm :=
        match ucred with
        | some u => { sm with procid := u.pid }
        | none => sm
      let sm :=
        match ident2 with
        | some i => { sm with appname := i }
        | none => sm
      let sm := { sm with message := message }
      match syslog_fill_iovec strftime_z sm 10 with
      | none => ⟨none, none, none⟩
      | some r =>
        ⟨some r.2,
         if cfg.forward_to_syslog then
           some (forward_syslog_iovec cfg.daemon_pid n_missed ucred r1 r2)
         else none,
         if cfg.forward_to_remote_syslog then
           some (forward_remote_syslog_iovec cfg.remote remote_fd sock r.2)
         else none⟩

/-- `forward_syslog_raw` (journald-syslog.c:162): `none` models the
level-filter early return (no send attempted, no state touched);
otherwise the single-fragment payload and the relay-send outcome. -/
def forward_syslog_raw (cfg : ServerConfig) (n_missed : Nat) (priority : Nat)
    (buffer : String) (ucred : Option Ucred) (r1 r2 : SendResult) :
    Option (List String × LocalForwardResult) :=
  if LOG_PRI priority > cfg.max_level_syslog then none
  else some ([buffer], forward_syslog_iovec cfg.daemon_pid n_missed ucred r1 r2)

/-- `N_IOVEC_META_FIELDS` from journald-server.h (not under `src/`); its
exact value is immaterial here beyond making the iovec capacity
`N_IOVEC_META_FIELDS + 6 ≥ 10`; the reference system uses 20. -/
def N_IOVEC_META_FIELDS : Nat := 20

/-- What one call to `server_process_syslog_message` did. -/
structure ProcessSyslogResult where
  /-- the structured `KEY=value` fields handed to `server_dispatch_message` -/
  dispatched_fields : List String
  /-- the priority handed to `server_dispatch_message` -/
  dispatched_priority : Nat
  forwarded_kmsg : Bool
  forwarded_console : Bool
  forwarded_wall : Bool
  /-- the RFC5424 scatter list built (`none` on any early return) -/
  iovec : Option (List String)
  /-- `some` iff `forward_syslog_iovec` was invoked -/
  local_send : Option LocalForwardResult
  /-- `some` iff `forward_remote_syslog_iovec` was invoked -/
  remote_send : Option RemoteForwardResult
deriving DecidableEq, Repr

/-- `server_process_syslog_message` (journald-syslog.c:418).

`parse_priority` is the oracle for `syslog_parse_priority(&buf, &priority,
true)` (defined outside this translation unit): it receives the raw buffer
and yields the resulting priority together with the advanced buffer (when
no valid `<N>` prefix is present it leaves the buffer alone and the
priority at its caller-initialized `LOG_USER|LOG_INFO`).  `parse_pid` is
the oracle for `parse_pid(pid, &sm.procid)`: `some v` = success storing
`v`, `none` = failure, after which the C resets `sm.procid` to 0.
`strjoina` cannot fail and is modelled as plain concatenation. -/
def server_process_syslog_message (cfg : ServerConfig) (n_missed : Nat)
    (remote_fd : Nat) (buf0 : List Char) (ucred : Option Ucred)
    (tv : Option Nat) (now_realtime : Nat) (localtime_r : Nat → Option Nat)
    (strftime_z : Nat → Option String)
    (parse_priority : List Char → Nat × List Char)
    (parse_pid : List Char → Option Nat)
    (r1 r2 : SendResult) (sock : Option Nat) : ProcessSyslogResult :=
  let sm := syslog_init_message sm0
  let sm :=
    if cfg.hostname_field ≠ "" then { sm with hostname := cfg.hostname_field }
    else sm
  let pp := parse_priority buf0
  let priority := pp.1
  let buf1 := syslog_skip_date pp.2
  let pr := syslog_parse_identifier buf1
  let buf := pr.buf
  let sm := { sm with priority := priority }
  let sm :=
    match pr.identifier with
    | some id => { sm with appname := String.mk id }
    | none => sm
  let sm :=
    match pr.pid with
    | some pd => { sm with procid := (parse_pid pd).getD 0 }
    | none => sm
  let sm := { sm with message := String.mk buf }
  let fields :=
    ["_TRANSPORT=syslog", "PRIORITY=" ++ toString (priority &&& LOG_PRIMASK)]
    ++ (if priority &&& LOG_FACMASK ≠ 0 then
          ["SYSLOG_FACILITY=" ++ toString (LOG_FAC priority)]
        else [])
    ++ (match pr.identifier with
        | some id => ["SYSLOG_IDENTIFIER=" ++ String.mk id]
        | none => [])
    ++ (match pr.pid with
        | some pd => ["SYSLOG_PID=" ++ String.mk pd]
        | none => [])
    ++ ["MESSAGE=" ++ String.mk buf]
  match localtime_r (time_of tv now_realtime) with
  | none =>
    ⟨fields, priority, cfg.forward_to_kmsg, cfg.forward_to_console,
     cfg.forward_to_wall, none, none, none⟩
  | some tm =>
    let sm := { sm with timestamp := tm }
    match syslog_fill_iovec strftime_z sm (N_IOVEC_META_FIELDS + 6) with
    | none =>
      ⟨fields, priority, cfg.forward_to_kmsg, cfg.forward_to_console,
       cfg.forward_to_wall, none, none, none⟩
    | some r =>
      ⟨fields, priority, cfg.forward_to_kmsg, cfg.forward_to_console,
       cfg.forward_to_wall, some r.2,
       if cfg.forward_to_syslog then
         some (forward_syslog_iovec cfg.daemon_pid n_missed ucred r1 r2)
       else none,
       if cfg.forward_to_remote_syslog then
         some (forward_remote_syslog_iovec cfg.remote remote_fd sock r.2)
       else none⟩

/-! ## Helper lemmas -/

lemma skip_date_loop_eq (cls : List DateClass) (buf : List Char) :
    skip_date_loop cls buf =
      if (decide (cls.length ≤ buf.length) &&
          ((cls.zip buf).all fun cp => matches_class cp.2 cp.1)) = true then
        some (buf.drop cls.length)
      else none := by
  induction cls generalizing buf with
  | nil => simp [skip_date_loop]
  | cons cl cls ih =>
    cases buf with
    | nil => simp [skip_date_loop]
    | cons c p =>
      simp only [skip_date_loop, List.zip_cons_cons, List.all_cons,
        List.length_cons, List.drop_succ_cons]
      by_cases h : matches_class c cl = true
      · rw [if_pos h, ih]
        by_cases h2 : (decide (cls.length ≤ p.length) &&
            ((cls.zip p).all fun cp => matches_class cp.2 cp.1)) = true
        · rw [if_pos h2, if_pos (by simp_all [Nat.add_le_add_iff_right])]
        · rw [if_neg h2, if_neg (by simp_all [Nat.add_le_add_iff_right])]
      · rw [if_neg h, if_neg (by simp [h])]

/-! ## Claim C5 — `syslog_skip_date` -/

/-- **C5 (counterexample).** The claim says the optional date prefix
matches "exactly 15 positions"; on the spec's own example
`"Jan  1 00:00:00 rest"` the code consumes 16 characters (the `sequence[]`
array has 16 entries — `"Mmm dd hh:mm:ss "` including the trailing space),
not 15. -/
theorem C5_counterexample :
    syslog_skip_date ("Jan  1 00:00:00 rest".toList) =
      ("Jan  1 00:00:00 rest".toList).drop 16 ∧
    ("Jan  1 00:00:00 rest".toList).drop 16 ≠
      ("Jan  1 00:00:00 rest".toList).drop 15 := by
  decide

/-- **C5 (amended).** `syslog_skip_date` consumes an optional
`"Mmm dd hh:mm:ss "` date prefix matching the character-class sequence of
exactly **16** positions (3 letters, space, space-or-digit, digit, space,
space-or-digit, digit, colon, space-or-digit, digit, colon,
space-or-digit, digit, space); whenever any position fails its class
(including premature end of input) the cursor is left exactly at its
original position with no partial consumption, and when all 16 match the
cursor advances by exactly 16. -/
theorem C5_skip_date (buf : List Char) :
    date_sequence.length = 16 ∧
    syslog_skip_date buf =
      (if date_prefix_matches buf then buf.drop date_sequence.length else buf) := by
  refine ⟨by decide, ?_⟩
  unfold syslog_skip_date date_prefix_matches
  rw [skip_date_loop_eq]
  by_cases h : (decide (date_sequence.length ≤ buf.length) &&
      ((date_sequence.zip buf).all fun cp => matches_class cp.2 cp.1)) = true
  · rw [if_pos h, if_pos h]
  · rw [if_neg h, if_neg h]

/-! ## Claim C2 — facility clamping -/

/-- **C2.** For every priority value in `0..999`, the facility clamp of
the synthesizer yields a priority whose facility field (bits above the
low 3) is at most 23 and whose severity bits (low 3) are unchanged;
priorities whose facility is already at most 23 pass through unchanged. -/
theorem C2_facility_clamp (p : Nat) (_hp : p ≤ 999) :
    clamp_facility p >>> 3 ≤ 23 ∧
    clamp_facility p &&& 7 = p &&& 7 ∧
    (p >>> 3 ≤ 23 → clamp_facility p = p) := by
  have hand : ∀ q : Nat, q &&& 7 = q % 8 := fun q =>
    Nat.and_pow_two_sub_one_eq_mod q 3
  have hshift : ∀ q : Nat, q >>> 3 = q / 8 := fun q =>
    Nat.shiftRight_eq_div_pow q 3
  have h184 : (23 : Nat) <<< 3 = 184 := rfl
  simp only [clamp_facility, hand, hshift, h184]
  by_cases h : p / 8 > 23
  · rw [if_pos h]; omega
  · rw [if_neg h]; omega

/-- **C2 (witness).** Priority 323 (facility 40, severity 3) is clamped to
facility 23 with severity 3 preserved. -/
theorem C2_witness :
    clamp_facility 323 >>> 3 ≤ 23 ∧
    clamp_facility 323 &&& 7 = 323 &&& 7 ∧
    (323 >>> 3 ≤ 23 → clamp_facility 323 = 323) :=
  C2_facility_clamp 323 (by decide)

/-! ## Claim C4 — loss-warning throttle -/

/-- **C4.** `server_maybe_warn_forward_syslog_missed` is a no-op when the
loss counter is zero; it is a no-op leaving the counter untouched when
fewer than 30 seconds have elapsed since the last warning; otherwise it
emits exactly one diagnostic carrying the current counter value `n`,
resets the counter to zero, and records the current time as the
last-warned time.  Additionally, `n` consecutive resource-exhausted
(`EAGAIN`) local sends raise the counter by exactly `n`, and the sends
themselves never emit the diagnostic (only the throttle does). -/
theorem C4_loss_throttle :
    (∀ last now,
      server_maybe_warn_forward_syslog_missed ⟨0, last⟩ now = (⟨0, last⟩, none)) ∧
    (∀ n last now, n ≠ 0 → now < last + WARN_FORWARD_SYSLOG_MISSED_USEC →
      server_maybe_warn_forward_syslog_missed ⟨n, last⟩ now = (⟨n, last⟩, none)) ∧
    (∀ n last now, n ≠ 0 → last + WARN_FORWARD_SYSLOG_MISSED_USEC ≤ now →
      server_maybe_warn_forward_syslog_missed ⟨n, last⟩ now = (⟨0, now⟩, some n)) ∧
    (∀ daemon_pid ucred r2 n start,
      iterate_forward_eagain daemon_pid ucred r2 n start = start + n) := by
  refine ⟨?_, ?_, ?_, ?_⟩
  · intro last now
    simp [server_maybe_warn_forward_syslog_missed]
  · intro n last now h1 h2
    rw [server_maybe_warn_forward_syslog_missed, if_neg h1, if_pos h2]
  · intro n last now h1 h2
    rw [server_maybe_warn_forward_syslog_missed, if_neg h1,
      if_neg (by omega : ¬ last + WARN_FORWARD_SYSLOG_MISSED_USEC > now)]
  · intro daemon_pid ucred r2 n
    induction n with
    | zero => intro start; simp [iterate_forward_eagain]
    | succ m ih =>
      intro start
      rw [iterate_forward_eagain]
      have hf : (forward_syslog_iovec daemon_pid start ucred (.err .EAGAIN)
          r2).n_forward_syslog_missed = start + 1 := by
        simp [forward_syslog_iovec]
      rw [hf, ih]
      omega

/-- **C4 (witness).** With counter 5 and no elapsed time no diagnostic
fires and the counter stays 5; at 30 seconds the diagnostic fires carrying
5 and the counter resets; 5 `EAGAIN` sends from counter 0 leave it at 5. -/
theorem C4_witness :
    server_maybe_warn_forward_syslog_missed ⟨5, 0⟩ 0 = (⟨5, 0⟩, none) ∧
    server_maybe_warn_forward_syslog_missed ⟨5, 0⟩ 30000000 =
      (⟨0, 30000000⟩, some 5) ∧
    iterate_forward_eagain 1 none .ok 5 0 = 0 + 5 :=
  ⟨C4_loss_throttle.2.1 5 0 0 (by decide) (by decide),
   C4_loss_throttle.2.2.1 5 0 30000000 (by decide) (by decide),
   C4_loss_throttle.2.2.2 1 none .ok 5 0⟩

/-! ## Claim C1 — local relay send outcomes -/

/-- **C1 (counterexample).** The claim says any retry failure other than
resource exhaustion is dropped silently; but when the retry fails with an
error that is neither `EAGAIN` nor `ENOENT` the code falls through to
`log_debug_errno("Failed to forward syslog message")`, i.e. the drop is
logged, not silent: first send fails `EPERM` with credentials supplied,
retry fails with another error, and `logged_debug = true`. -/
theorem C1_counterexample :
    forward_syslog_iovec 1 0 (some ⟨9, 2, 3⟩) (.err .EPERM) (.err .EOTHER) =
      ⟨0, [some ⟨9, 2, 3⟩, some ⟨1, 2, 3⟩], true⟩ := by
  decide

/-- **C1 (amended).** For every call to `forward_syslog_iovec`: on success
no state changes; on `EAGAIN` the loss counter is incremented by exactly
one and no retry occurs; on `EPERM`/`ESRCH` with credentials supplied, the
daemon's own pid is substituted into the credential payload (uid/gid kept)
and the send is retried exactly once — a second `EAGAIN` increments the
loss counter, a retry `ENOENT` is dropped silently, and any other retry
failure is dropped after being logged at low severity (debug); a
first-attempt `ENOENT` is dropped silently; any other first-attempt
failure is logged at low severity and not retried.  In every case at most
two send attempts are made per call. -/
theorem C1_local_relay (daemon_pid n_missed : Nat) (u : Ucred)
    (ucred : Option Ucred) (r1 r2 : SendResult) (e e2 : Errno) :
    (forward_syslog_iovec daemon_pid n_missed ucred .ok r2 =
      ⟨n_missed, [ucred], false⟩) ∧
    (forward_syslog_iovec daemon_pid n_missed ucred (.err .EAGAIN) r2 =
      ⟨n_missed + 1, [ucred], false⟩) ∧
    ((e = .ESRCH ∨ e = .EPERM) →
      forward_syslog_iovec daemon_pid n_missed (some u) (.err e) .ok =
        ⟨n_missed, [some u, some { u with pid := daemon_pid }], false⟩) ∧
    ((e = .ESRCH ∨ e = .EPERM) →
      forward_syslog_iovec daemon_pid n_missed (some u) (.err e) (.err .EAGAIN) =
        ⟨n_missed + 1, [some u, some { u with pid := daemon_pid }], false⟩) ∧
    ((e = .ESRCH ∨ e = .EPERM) →
      forward_syslog_iovec daemon_pid n_missed (some u) (.err e) (.err .ENOENT) =
        ⟨n_missed, [some u, some { u with pid := daemon_pid }], false⟩) ∧
    ((e = .ESRCH ∨ e = .EPERM) → e2 ≠ .EAGAIN → e2 ≠ .ENOENT →
      forward_syslog_iovec daemon_pid n_missed (some u) (.err e) (.err e2) =
        ⟨n_missed, [some u, some { u with pid := daemon_pid }], true⟩) ∧
    (forward_syslog_iovec daemon_pid n_missed ucred (.err .ENOENT) r2 =
      ⟨n_missed, [ucred], false⟩) ∧
    (e ≠ .EAGAIN → e ≠ .ENOENT → (ucred = none ∨ (e ≠ .ESRCH ∧ e ≠ .EPERM)) →
      forward_syslog_iovec daemon_pid n_missed ucred (.err e) r2 =
        ⟨n_missed, [ucred], true⟩) ∧
    ((forward_syslog_iovec daemon_pid n_missed ucred r1 r2).attempts.length ≤ 2) := by
  refine ⟨?_, ?_, ?_, ?_, ?_, ?_, ?_, ?_, ?_⟩
  · rfl
  · cases ucred <;> simp [forward_syslog_iovec]
  · rintro (rfl | rfl) <;> simp [forward_syslog_iovec]
  · rintro (rfl | rfl) <;> simp [forward_syslog_iovec]
  · rintro (rfl | rfl) <;> simp [forward_syslog_iovec]
  · rintro (rfl | rfl) h1 h2 <;> cases e2 <;> simp_all [forward_syslog_iovec]
  · cases ucred <;> simp [forward_syslog_iovec]
  · intro h1 h2 h3
    cases e <;> cases ucred <;> simp_all [forward_syslog_iovec]
  · cases r1 with
    | ok => simp [forward_syslog_iovec]
    | err e3 =>
      cases e3 <;> cases ucred <;> cases r2 <;>
        simp [forward_syslog_iovec] <;> split <;> simp

/-- **C1 (witness).** A first `ESRCH` failure with credentials retries
once with the daemon pid substituted; the retry's `EAGAIN` increments the
counter. -/
theorem C1_witness :
    forward_syslog_iovec 7 4 (some ⟨9, 2, 3⟩) (.err .ESRCH) (.err .EAGAIN) =
      ⟨4 + 1, [some ⟨9, 2, 3⟩, some ⟨7, 2, 3⟩], false⟩ :=
  (C1_local_relay 7 4 ⟨9, 2, 3⟩ (some ⟨9, 2, 3⟩) (.err .ESRCH) (.err .EAGAIN)
    .ESRCH .EOTHER).2.2.2.1 (Or.inl rfl)

/-! ## Claim C8 — remote forwarder no-op conditions -/

/-- **C8 (counterexample).** The claim says the "no remote target / not
IPv4" condition is logged once as a warning at setup time rather than once
per forwarded message.  With a configured non-`AF_INET` target, two
consecutive forwarded messages emit the warning pair
(`"target configured"`, `"non AF_INET ... ignoring"`) twice — four log
events, i.e. once per forwarded message, not once at setup; and with no
target configured (`INADDR_NONE`) nothing is ever logged at all. -/
theorem C8_counterexample :
    iterate_remote_forward ⟨1, 3⟩ none ["x"] 2 0 = (0, 0, 4) ∧
    iterate_remote_forward ⟨INADDR_NONE, 2⟩ none ["x"] 2 0 = (0, 0, 0) := by
  decide

/-- **C8 (amended).** For every call to the remote forwarder with the
socket never yet opened: if no remote target is configured
(`s_addr = INADDR_NONE`) the send is a silent no-op (no datagram, no log,
socket stays unopened); if a target is configured but is not an `AF_INET`
endpoint the send is a no-op that logs the warning on *each* forwarded
message (at each lazy-open attempt), not once at setup.  Both conditions
persist for the remainder of the process: after `n` forwarded messages the
socket is still unopened, zero datagrams were sent, and the number of log
events is `0` resp. `2·n`. -/
theorem C8_remote_noop (cfg : RemoteConfig) (sock : Option Nat)
    (iovec : List String) (n : Nat) :
    (cfg.s_addr = INADDR_NONE →
      forward_remote_syslog_iovec cfg 0 sock iovec = ⟨0, none, []⟩ ∧
      iterate_remote_forward cfg sock iovec n 0 = (0, 0, 0)) ∧
    (cfg.s_addr ≠ INADDR_NONE → cfg.sin_family ≠ AF_INET →
      forward_remote_syslog_iovec cfg 0 sock iovec =
        ⟨0, none, [.warnTargetConfigured, .warnNonAfInet]⟩ ∧
      iterate_remote_forward cfg sock iovec n 0 = (0, 0, 2 * n)) := by
  constructor
  · intro h1
    have hone : forward_remote_syslog_iovec cfg 0 sock iovec = ⟨0, none, []⟩ := by
      simp [forward_remote_syslog_iovec, maybe_open_remote_syslog, h1]
    refine ⟨hone, ?_⟩
    induction n with
    | zero => rfl
    | succ m ih => rw [iterate_remote_forward, hone, ih]; simp
  · intro h1 h2
    have hone : forward_remote_syslog_iovec cfg 0 sock iovec =
        ⟨0, none, [.warnTargetConfigured, .warnNonAfInet]⟩ := by
      simp [forward_remote_syslog_iovec, maybe_open_remote_syslog, h1, h2]
    refine ⟨hone, ?_⟩
    induction n with
    | zero => rfl
    | succ m ih =>
      rw [iterate_remote_forward, hone, ih]
      simp
      omega

/-- **C8 (witness).** A non-`AF_INET` target: three messages, no sends,
six warnings, socket never opened; an unconfigured target: three messages,
nothing at all. -/
theorem C8_witness :
    (forward_remote_syslog_iovec ⟨1, 3⟩ 0 none ["x"] =
      ⟨0, none, [.warnTargetConfigured, .warnNonAfInet]⟩ ∧
     iterate_remote_forward ⟨1, 3⟩ none ["x"] 3 0 = (0, 0, 2 * 3)) ∧
    (forward_remote_syslog_iovec ⟨INADDR_NONE, 2⟩ 0 none ["x"] = ⟨0, none, []⟩ ∧
     iterate_remote_forward ⟨INADDR_NONE, 2⟩ none ["x"] 3 0 = (0, 0, 0)) :=
  ⟨(C8_remote_noop ⟨1, 3⟩ none ["x"] 3).2 (by decide) (by decide),
   (C8_remote_noop ⟨INADDR_NONE, 2⟩ none ["x"] 3).1 rfl⟩

/-! ## Claim C3 — scatter-list synthesis -/

/-- **C3.** `syslog_fill_iovec` fails with a capacity error whenever the
caller-supplied capacity is less than 10, and otherwise produces exactly
10 fragments in fixed order; on a freshly default-initialized record the
fragments are exactly `"<14>1 "`, the timestamp-or-`"- "` field, `"-"`,
`" "`, `"-"`, `" "`, `"- "`, `"-"`, `" - "`, `"-"`. -/
theorem C3_fill_scatter_list :
    (∀ (strftime_z : Nat → Option String) (sm : SyslogMessage) (n : Nat),
      n < 10 → syslog_fill_iovec strftime_z sm n = none) ∧
    (∀ (strftime_z : Nat → Option String) (sm : SyslogMessage) (n : Nat),
      10 ≤ n →
      ((syslog_fill_iovec strftime_z sm n).map fun r => r.2.length) = some 10) ∧
    (∀ (strftime_z : Nat → Option String) (sm : SyslogMessage),
      syslog_fill_iovec strftime_z (syslog_init_message sm) 10 =
        some (syslog_init_message sm,
          ["<14>1 ", (strftime_z sm.timestamp).getD "- ", "-", " ", "-", " ",
           "- ", "-", " - ", "-"])) := by
  refine ⟨?_, ?_, ?_⟩
  · intro strftime_z sm n h
    rw [syslog_fill_iovec, if_pos h]
  · intro strftime_z sm n h
    rw [syslog_fill_iovec, if_neg (by omega)]
    simp
  · intro strftime_z sm
    rw [syslog_fill_iovec, if_neg (by omega)]
    cases h : strftime_z sm.timestamp <;>
      simp [syslog_init_message, clamp_facility, h, String.isPrefixOf] <;>
      exact ⟨rfl, rfl⟩

/-- **C3 (witness).** Capacity 9 fails; capacity 10 yields 10 fragments;
a default record renders the claimed fixed fragments. -/
theorem C3_witness :
    syslog_fill_iovec (fun _ => none) sm0 9 = none ∧
    ((syslog_fill_iovec (fun _ => none) sm0 10).map fun r => r.2.length) =
      some 10 ∧
    syslog_fill_iovec (fun _ => none) (syslog_init_message sm0) 10 =
      some (syslog_init_message sm0,
        ["<14>1 ", "- ", "-", " ", "-", " ", "- ", "-", " - ", "-"]) :=
  ⟨C3_fill_scatter_list.1 (fun _ => none) sm0 9 (by decide),
   C3_fill_scatter_list.2.1 (fun _ => none) sm0 10 (by decide),
   C3_fill_scatter_list.2.2 (fun _ => none) sm0⟩

/-! ## Claim C10 — severity filter on the forwarding paths -/

/-- **C10.** For every call to `server_forward_syslog` whose severity (low
3 priority bits) is numerically greater than the configured
`max_level_syslog`, the function returns immediately: no message is
built, neither sink is invoked, and no server state (loss counter, socket
handles) is touched; the same filter guards `forward_syslog_raw`. -/
theorem C10_level_filter (cfg : ServerConfig)
    (n_missed remote_fd priority : Nat) (identifier : Option String)
    (message buffer : String) (ucred : Option Ucred) (tv : Option Nat)
    (now_realtime : Nat) (localtime_r : Nat → Option Nat)
    (strftime_z : Nat → Option String)
    (get_process_comm : Nat → Option String) (r1 r2 : SendResult)
    (sock : Option Nat) (h : cfg.max_level_syslog < LOG_PRI priority) :
    server_forward_syslog cfg n_missed remote_fd priority identifier message
      ucred tv now_realtime localtime_r strftime_z get_process_comm r1 r2
      sock = ⟨none, none, none⟩ ∧
    forward_syslog_raw cfg n_missed priority buffer ucred r1 r2 = none := by
  constructor
  · rw [server_forward_syslog.eq_def, if_pos h]
  · rw [forward_syslog_raw, if_pos h]

/-- **C10 (witness).** Severity 7 against a maximum level of 3: both
paths bail out with nothing built, sent, or mutated. -/
theorem C10_witness :
    server_forward_syslog ⟨3, "", true, true, false, false, false, 1, ⟨1, 2⟩⟩
      0 0 7 none "m" none (some 0) 0 (fun t => some t) (fun _ => some "T ")
      (fun _ => none) .ok .ok (some 5) = ⟨none, none, none⟩ ∧
    forward_syslog_raw ⟨3, "", true, true, false, false, false, 1, ⟨1, 2⟩⟩
      0 7 "m" none .ok .ok = none :=
  C10_level_filter ⟨3, "", true, true, false, false, false, 1, ⟨1, 2⟩⟩
    0 0 7 none "m" "m" none (some 0) 0 (fun t => some t) (fun _ => some "T ")
    (fun _ => none) .ok .ok (some 5) (by decide)

/-! ## Claim C9 — timestamp fallback -/

/-- **C9 (counterexample).** The claim says that whenever the timestamp
cannot be converted or rendered the message is still produced and
forwarded with the literal `"- "` fragment.  But when the broken-down
time *conversion* fails (`localtime_r` returns NULL) `server_forward_syslog`
returns early: nothing is built and nothing is forwarded even though
`forward_to_syslog` is enabled. -/
theorem C9_counterexample :
    server_forward_syslog ⟨7, "", true, false, false, false, false, 1, ⟨1, 2⟩⟩
      0 0 6 none "hello" none (some 0) 0 (fun _ => none) (fun _ => none)
      (fun _ => none) .ok .ok none = ⟨none, none, none⟩ ∧
    (⟨7, "", true, false, false, false, false, 1, ⟨1, 2⟩⟩ :
      ServerConfig).forward_to_syslog = true := by
  exact ⟨rfl, rfl⟩

/-- **C9 (amended).** When the timestamp *rendering* fails (`strftime`
returns `<= 0`) the message is still produced and forwarded with its
timestamp fragment equal to the literal `"- "`, in both
`server_forward_syslog` and `server_process_syslog_message`; but when the
broken-down time *conversion* fails (`localtime_r` returns NULL),
`server_forward_syslog` forwards nothing at all, and
`server_process_syslog_message` still dispatches the structured entry but
skips both syslog forwards. -/
theorem C9_timestamp (cfg : ServerConfig) (n_missed remote_fd priority : Nat)
    (identifier : Option String) (message : String) (ucred : Option Ucred)
    (tv : Option Nat) (now_realtime : Nat) (localtime_r : Nat → Option Nat)
    (strftime_z : Nat → Option String)
    (get_process_comm : Nat → Option String) (r1 r2 : SendResult)
    (sock : Option Nat) (tm : Nat) (buf0 : List Char)
    (parse_priority : List Char → Nat × List Char)
    (parse_pid : List Char → Option Nat) :
    (localtime_r (time_of tv now_realtime) = none →
      server_forward_syslog cfg n_missed remote_fd priority identifier
        message ucred tv now_realtime localtime_r strftime_z
        get_process_comm r1 r2 sock = ⟨none, none, none⟩) ∧
    (LOG_PRI priority ≤ cfg.max_level_syslog →
      localtime_r (time_of tv now_realtime) = some tm →
      strftime_z tm = none →
      ∃ v, server_forward_syslog cfg n_missed remote_fd priority identifier
          message ucred tv now_realtime localtime_r strftime_z
          get_process_comm r1 r2 sock =
        ⟨some v,
         if cfg.forward_to_syslog then
           some (forward_syslog_iovec cfg.daemon_pid n_missed ucred r1 r2)
         else none,
         if cfg.forward_to_remote_syslog then
           some (forward_remote_syslog_iovec cfg.remote remote_fd sock v)
         else none⟩ ∧
        v.getD 1 "" = "- ") ∧
    (localtime_r (time_of tv now_realtime) = none →
      (server_process_syslog_message cfg n_missed remote_fd buf0 ucred tv
        now_realtime localtime_r strftime_z parse_priority parse_pid r1 r2
        sock).iovec = none ∧
      (server_process_syslog_message cfg n_missed remote_fd buf0 ucred tv
        now_realtime localtime_r strftime_z parse_priority parse_pid r1 r2
        sock).local_send = none ∧
      (server_process_syslog_message cfg n_missed remote_fd buf0 ucred tv
        now_realtime localtime_r strftime_z parse_priority parse_pid r1 r2
        sock).remote_send = none ∧
      (server_process_syslog_message cfg n_missed remote_fd buf0 ucred tv
        now_realtime localtime_r strftime_z parse_priority parse_pid r1 r2
        sock).dispatched_fields ≠ []) ∧
    (localtime_r (time_of tv now_realtime) = some tm → strftime_z tm = none →
      ∃ fields prio v,
        server_process_syslog_message cfg n_missed remote_fd buf0 ucred tv
          now_realtime localtime_r strftime_z parse_priority parse_pid r1 r2
          sock =
          ⟨fields, prio, cfg.forward_to_kmsg, cfg.forward_to_console,
           cfg.forward_to_wall, some v,
           if cfg.forward_to_syslog then
             some (forward_syslog_iovec cfg.daemon_pid n_missed ucred r1 r2)
           else none,
           if cfg.forward_to_remote_syslog then
             some (forward_remote_syslog_iovec cfg.remote remote_fd sock v)
           else none⟩ ∧
        v.getD 1 "" = "- ") := by
  refine ⟨?_, ?_, ?_, ?_⟩
  · intro hlt
    rw [server_forward_syslog.eq_def]
    split
    · rfl
    · simp only [hlt]
  · intro hfil hlt hsf
    rw [server_forward_syslog.eq_def,
      if_neg (by omega : ¬ LOG_PRI priority > cfg.max_level_syslog)]
    simp only [hlt]
    refine ⟨_, rfl, ?_⟩
    rcases ucred with _ | u <;> rcases identifier with _ | i
    · simp [hsf, List.getD, apply_ite SyslogMessage.timestamp]
    · simp [hsf, List.getD, apply_ite SyslogMessage.timestamp]
    · cases hg : get_process_comm u.pid <;>
        simp [hg, hsf, List.getD, apply_ite SyslogMessage.timestamp]
    · simp [hsf, List.getD, apply_ite SyslogMessage.timestamp]
  · intro hlt
    rw [server_process_syslog_message.eq_def]
    simp [hlt]
  · intro hlt hsf
    rw [server_process_syslog_message.eq_def]
    simp only [hlt]
    refine ⟨_, _, _, rfl, ?_⟩
    simp [hsf, List.getD, apply_ite SyslogMessage.timestamp]

/-- **C9 (witness).** Concrete instances of each case: conversion failure
drops the message in both entry points; rendering failure substitutes
`"- "` and still forwards in both entry points. -/
theorem C9_witness :
    server_forward_syslog ⟨7, "", true, false, false, false, false, 1, ⟨1, 2⟩⟩
      0 0 6 none "m" none (some 0) 0 (fun _ => none) (fun _ => none)
      (fun _ => none) .ok .ok none = ⟨none, none, none⟩ ∧
    (∃ v, server_forward_syslog ⟨7, "", true, false, false, false, false, 1,
        ⟨1, 2⟩⟩ 0 0 6 none "m" none (some 0) 0 (fun _ => some 0)
        (fun _ => none) (fun _ => none) .ok .ok none =
      ⟨some v, some (forward_syslog_iovec 1 0 none .ok .ok), none⟩ ∧
      v.getD 1 "" = "- ") ∧
    (server_process_syslog_message ⟨7, "", true, false, false, false, false,
      1, ⟨1, 2⟩⟩ 0 0 [] none (some 0) 0 (fun _ => none) (fun _ => none)
      (fun b => (14, b)) (fun _ => none) .ok .ok none).iovec = none ∧
    (∃ fields prio v,
      server_process_syslog_message ⟨7, "", true, false, false, false, false,
        1, ⟨1, 2⟩⟩ 0 0 [] none (some 0) 0 (fun _ => some 0) (fun _ => none)
        (fun b => (14, b)) (fun _ => none) .ok .ok none =
        ⟨fields, prio, false, false, false, some v,
         some (forward_syslog_iovec 1 0 none .ok .ok), none⟩ ∧
      v.getD 1 "" = "- ") :=
  ⟨(C9_timestamp ⟨7, "", true, false, false, false, false, 1, ⟨1, 2⟩⟩ 0 0 6
      none "m" none (some 0) 0 (fun _ => none) (fun _ => none) (fun _ => none)
      .ok .ok none 0 [] (fun b => (14, b)) (fun _ => none)).1 rfl,
   (C9_timestamp ⟨7, "", true, false, false, false, false, 1, ⟨1, 2⟩⟩ 0 0 6
      none "m" none (some 0) 0 (fun _ => some 0) (fun _ => none)
      (fun _ => none) .ok .ok none 0 [] (fun b => (14, b))
      (fun _ => none)).2.1 (by decide) rfl rfl,
   ((C9_timestamp ⟨7, "", true, false, false, false, false, 1, ⟨1, 2⟩⟩ 0 0 6
      none "m" none (some 0) 0 (fun _ => none) (fun _ => none) (fun _ => none)
      .ok .ok none 0 [] (fun b => (14, b)) (fun _ => none)).2.2.1 rfl).1,
   (C9_timestamp ⟨7, "", true, false, false, false, false, 1, ⟨1, 2⟩⟩ 0 0 6
      none "m" none (some 0) 0 (fun _ => some 0) (fun _ => none)
      (fun _ => none) .ok .ok none 0 [] (fun b => (14, b))
      (fun _ => none)).2.2.2 rfl rfl⟩

/-! ## List-scanning helper lemmas for the parser claims -/

lemma getD_eq_headD_drop (l : List Char) (n : Nat) (d : Char) :
    l.getD n d = (l.drop n).headD d := by
  induction l generalizing n with
  | nil => cases n <;> simp [List.getD]
  | cons c cs ih =>
    cases n with
    | zero => simp [List.getD]
    | succ m => simp [List.getD, ih m]

lemma getD_append_at (a b : List Char) (c d : Char) :
    (a ++ c :: b).getD a.length d = c := by
  rw [getD_eq_headD_drop]
  have h : (a ++ c :: b).drop a.length = c :: b := List.drop_left a (c :: b)
  rw [h]
  rfl

lemma strspn_ws_nonwhite_head (c : Char) (t : List Char)
    (h : isWhite c = false) : strspn_ws (c :: t) = 0 := by
  simp [strspn_ws, List.takeWhile_cons, h]

lemma strspn_ws_append (a b : List Char) (ha : ∀ c ∈ a, isWhite c = true)
    (hb : b = [] ∨ isWhite (b.headD 'a') = false) :
    strspn_ws (a ++ b) = a.length := by
  unfold strspn_ws
  rw [List.takeWhile_append_of_pos ha, List.length_append]
  rcases hb with rfl | hb
  · simp
  · cases b with
    | nil => simp
    | cons c cs =>
      simp only [List.headD_cons] at hb
      simp [List.takeWhile_cons, hb]

lemma strcspn_ws_append (a b : List Char) (ha : ∀ c ∈ a, isWhite c = false)
    (hb : b = [] ∨ isWhite (b.headD 'a') = true) :
    strcspn_ws (a ++ b) = a.length := by
  unfold strcspn_ws
  rw [List.takeWhile_append_of_pos (by intro x hx; simp [ha x hx]),
    List.length_append]
  rcases hb with rfl | hb
  · simp
  · cases b with
    | nil => simp
    | cons c cs =>
      simp only [List.headD_cons] at hb
      simp [List.takeWhile_cons, hb]

lemma find_open_bracket_found (p : List Char) (k0 : Nat)
    (h0 : p.getD k0 ' ' = '[') :
    ∀ m, k0 ≤ m → (∀ i, k0 < i → i ≤ m → p.getD i ' ' ≠ '[') →
      find_open_bracket p m = some k0 := by
  intro m
  induction m with
  | zero =>
    intro hle _
    have hk : k0 = 0 := Nat.le_zero.mp hle
    subst hk
    rw [find_open_bracket, if_pos h0]
  | succ m ih =>
    intro hle hno
    by_cases hk : k0 = m + 1
    · subst hk
      rw [find_open_bracket, if_pos h0]
    · have hne : p.getD (m + 1) ' ' ≠ '[' := hno (m + 1) (by omega) (by omega)
      rw [find_open_bracket, if_neg hne]
      exact ih (by omega) (fun i h1 h2 => hno i h1 (by omega))

lemma getD_prefix_of_takeWhile (q : Char → Bool) (p : List Char) (k : Nat)
    (d : Char) (h : k < (p.takeWhile q).length) :
    p.getD k d = (p.takeWhile q).getD k d := by
  induction p generalizing k with
  | nil => simp [List.takeWhile] at h
  | cons c cs ih =>
    by_cases hc : q c = true
    · rw [List.takeWhile_cons_of_pos hc] at h ⊢
      cases k with
      | zero => simp [List.getD]
      | succ m =>
        simp only [List.getD_cons_succ]
        exact ih m (by simpa using h)
    · rw [List.takeWhile_cons_of_neg hc] at h
      simp at h

lemma getLast?_eq_getD (l : List Char) (h : l ≠ []) :
    l.getLast? = some (l.getD (l.length - 1) ' ') := by
  induction l with
  | nil => exact absurd rfl h
  | cons c cs ih =>
    cases cs with
    | nil => simp [List.getD]
    | cons c2 cs2 =>
      rw [List.getLast?_cons_cons, ih (by simp)]
      simp [List.getD]

lemma getD_append_plus (a b : List Char) (j : Nat) (d : Char) :
    (a ++ b).getD (a.length + j) d = b.getD j d := by
  induction a with
  | nil => simp
  | cons c cs ih => simpa [List.getD, Nat.succ_add] using ih

lemma getD_append_left (a b : List Char) (j : Nat) (d : Char)
    (h : j < a.length) : (a ++ b).getD j d = a.getD j d := by
  induction a generalizing j with
  | nil => simp at h
  | cons c cs ih =>
    cases j with
    | zero => simp [List.getD]
    | succ m =>
      simp only [List.cons_append, List.getD_cons_succ]
      exact ih m (by simpa using h)

lemma getD_mem (l : List Char) (n : Nat) (d : Char) (h : n < l.length) :
    l.getD n d ∈ l := by
  induction l generalizing n with
  | nil => simp at h
  | cons c cs ih =>
    cases n with
    | zero => simp [List.getD]
    | succ m =>
      simp only [List.getD_cons_succ]
      exact List.mem_cons_of_mem c (ih m (by simpa using h))

lemma drop_append_len (a b : List Char) (n : Nat) (h : a.length = n) :
    (a ++ b).drop n = b := by
  subst h
  exact List.drop_left a b

lemma take_append_len (a b : List Char) (n : Nat) (h : a.length = n) :
    (a ++ b).take n = a := by
  subst h
  exact List.take_left a b

/-! ## Claim C7 — parser failure cases -/

/-- **C7 (counterexample).** The claim says every input whose first
whitespace-delimited token has length at most 1 yields no identifier, no
pid, zero consumed bytes, and an unchanged cursor.  But the length-1 token
`":"` *is* colon-terminated, so the guard `l <= 0 || p[l-1] != ':'` does
not reject it: on `" : x"` the code produces an *empty* identifier,
consumes 2 bytes, and advances the cursor to `"x"`. -/
theorem C7_counterexample :
    syslog_parse_identifier (" : x".toList) = ⟨"x".toList, some [], none, 2⟩ ∧
    syslog_parse_identifier (" : x".toList) ≠ ⟨" : x".toList, none, none, 0⟩ := by
  decide

/-- **C7 (amended).** For every input whose first whitespace-delimited
token is empty or is not terminated by a colon, `syslog_parse_identifier`
yields no identifier and no pid, consumes zero bytes, and leaves the
cursor unchanged.  (A length-1 token is rejected exactly when it is not
`":"`; the colon-only token instead yields an empty identifier, as the
concrete conjunct shows.) -/
theorem C7_parse_identifier_reject :
    (∀ buf : List Char,
      ((buf.drop (strspn_ws buf)).takeWhile (fun c => !(isWhite c)) = [] ∨
        ((buf.drop (strspn_ws buf)).takeWhile
          (fun c => !(isWhite c))).getLast? ≠ some ':') →
      syslog_parse_identifier buf = ⟨buf, none, none, 0⟩) ∧
    syslog_parse_identifier (" : x".toList) = ⟨"x".toList, some [], none, 2⟩ := by
  constructor
  · intro buf h
    have hcond : strcspn_ws (buf.drop (strspn_ws buf)) = 0 ∨
        (buf.drop (strspn_ws buf)).getD
          (strcspn_ws (buf.drop (strspn_ws buf)) - 1) ' ' ≠ ':' := by
      by_cases htok :
          (buf.drop (strspn_ws buf)).takeWhile (fun c => !(isWhite c)) = []
      · left
        unfold strcspn_ws
        rw [htok]
        rfl
      · rcases h with h | h
        · exact absurd h htok
        · right
          intro hc
          apply h
          rw [getLast?_eq_getD _ htok]
          unfold strcspn_ws at hc
          have hlen : ((buf.drop (strspn_ws buf)).takeWhile
              (fun c => !(isWhite c))).length - 1 <
              ((buf.drop (strspn_ws buf)).takeWhile
                (fun c => !(isWhite c))).length := by
            have : ((buf.drop (strspn_ws buf)).takeWhile
                (fun c => !(isWhite c))).length ≠ 0 := by
              simpa [List.length_eq_zero] using htok
            omega
          rw [← getD_prefix_of_takeWhile _ _ _ _ hlen]
          rw [hc]
    rw [syslog_parse_identifier, if_pos hcond]
  · decide

/-- **C7 (witness).** The spec's own example: `"nocolon hello"` has a
first token not ending in a colon, so nothing is produced and the cursor
does not move. -/
theorem C7_witness :
    syslog_parse_identifier ("nocolon hello".toList) =
      ⟨"nocolon hello".toList, none, none, 0⟩ :=
  C7_parse_identifier_reject.1 ("nocolon hello".toList) (by decide)

/-! ## Claim C6 — parsing an identifier with a bracketed pid -/

/-- **C6.** For a whitespace-delimited colon-terminated token whose body
ends in `]` with a matching `[`, `syslog_parse_identifier` returns the
bracketed substring as the pid and everything before the bracket pair as
the identifier, consuming the token and the trailing whitespace: on input
`ident ++ "[" ++ pid ++ "]:" ++ ws2 ++ rest` (with `ident`/`pid`
whitespace-free, `pid` free of `'['`, `ws2` whitespace, and the token
properly delimited) the result is identifier `ident`, pid `pid`, cursor at
`rest`, and `ident.length + pid.length + 3 + ws2.length` bytes consumed.
In particular on `"myapp[123]: hello"` it yields identifier `"myapp"`,
pid `"123"`, and the cursor advanced past `"myapp[123]: "` to `"hello"`
(see the witness). -/
theorem C6_parse_identifier (ident pid ws2 rest : List Char)
    (hi : ∀ c ∈ ident, isWhite c = false)
    (hp : ∀ c ∈ pid, isWhite c = false)
    (hpb : ∀ c ∈ pid, c ≠ '[')
    (hw : ∀ c ∈ ws2, isWhite c = true)
    (hr : rest = [] ∨ isWhite (rest.headD 'a') = false)
    (hwr : ws2 = [] → rest = []) :
    syslog_parse_identifier
        (ident ++ ('[' :: (pid ++ (']' :: (':' :: (ws2 ++ rest)))))) =
      ⟨rest, some ident, some pid,
       ident.length + pid.length + 3 + ws2.length⟩ := by
  have hassoc1 : ident ++ ('[' :: (pid ++ (']' :: (':' :: (ws2 ++ rest)))))
      = (ident ++ ('[' :: (pid ++ [']', ':']))) ++ (ws2 ++ rest) := by simp
  have hassoc2 : ident ++ ('[' :: (pid ++ (']' :: (':' :: (ws2 ++ rest)))))
      = (ident ++ ('[' :: (pid ++ [']']))) ++ (':' :: (ws2 ++ rest)) := by simp
  have hassoc3 : ident ++ ('[' :: (pid ++ (']' :: (':' :: (ws2 ++ rest)))))
      = (ident ++ ('[' :: pid)) ++ (']' :: (':' :: (ws2 ++ rest))) := by simp
  have hassoc4 : ident ++ ('[' :: (pid ++ (']' :: (':' :: (ws2 ++ rest)))))
      = (ident ++ ['[']) ++ (pid ++ (']' :: (':' :: (ws2 ++ rest)))) := by simp
  have hassoc5 : ident ++ ('[' :: (pid ++ (']' :: (':' :: (ws2 ++ rest)))))
      = ((ident ++ ('[' :: (pid ++ [']', ':']))) ++ ws2) ++ rest := by simp
  have h0 : strspn_ws
      (ident ++ ('[' :: (pid ++ (']' :: (':' :: (ws2 ++ rest)))))) = 0 := by
    cases ident with
    | nil =>
      simpa using strspn_ws_nonwhite_head '['
        (pid ++ (']' :: (':' :: (ws2 ++ rest)))) (by decide)
    | cons c t =>
      simpa using strspn_ws_nonwhite_head c
        (t ++ ('[' :: (pid ++ (']' :: (':' :: (ws2 ++ rest))))))
        (hi c (by simp))
  have htok : strcspn_ws
      (ident ++ ('[' :: (pid ++ (']' :: (':' :: (ws2 ++ rest))))))
      = ident.length + pid.length + 3 := by
    rw [hassoc1, strcspn_ws_append]
    · simp only [List.length_append, List.length_cons, List.length_nil]
      omega
    · intro c hc
      rcases List.mem_append.mp hc with h1 | h2
      · exact hi c h1
      · rcases List.mem_cons.mp h2 with rfl | h3
        · decide
        · rcases List.mem_append.mp h3 with h4 | h5
          · exact hp c h4
          · rcases List.mem_cons.mp h5 with rfl | h6
            · decide
            · rcases List.mem_cons.mp h6 with rfl | h7
              · decide
              · simp at h7
    · cases ws2 with
      | nil => left; simp [hwr rfl]
      | cons w ws => right; simp [hw w (by simp)]
  have hcolon : (ident ++ ('[' :: (pid ++ (']' :: (':' :: (ws2 ++ rest)))))).getD
      (ident.length + pid.length + 2) ' ' = ':' := by
    have hlen : (ident ++ ('[' :: (pid ++ [']']))).length
        = ident.length + pid.length + 2 := by
      simp only [List.length_append, List.length_cons, List.length_nil]
      omega
    rw [hassoc2, ← hlen]
    exact getD_append_at _ _ _ _
  have hrb : (ident ++ ('[' :: (pid ++ (']' :: (':' :: (ws2 ++ rest)))))).getD
      (ident.length + pid.length + 1) ' ' = ']' := by
    have hlen : (ident ++ ('[' :: pid)).length
        = ident.length + pid.length + 1 := by
      simp only [List.length_append, List.length_cons]
      omega
    rw [hassoc3, ← hlen]
    exact getD_append_at _ _ _ _
  have hob : (ident ++ ('[' :: (pid ++ (']' :: (':' :: (ws2 ++ rest)))))).getD
      ident.length ' ' = '[' :=
    getD_append_at ident _ '[' ' '
  have hfind : find_open_bracket
      (ident ++ ('[' :: (pid ++ (']' :: (':' :: (ws2 ++ rest))))))
      (ident.length + pid.length + 1) = some ident.length := by
    apply find_open_bracket_found _ _ hob _ (by omega)
    intro i hgt hle
    by_cases hi2 : i = ident.length + pid.length + 1
    · rw [hi2, hrb]; decide
    · obtain ⟨j, hj, rfl⟩ : ∃ j, j < pid.length ∧ i = ident.length + 1 + j :=
        ⟨i - ident.length - 1, by omega, by omega⟩
      have hlen4 : (ident ++ ['[']).length = ident.length + 1 := by simp
      have e1 : (ident ++ ('[' :: (pid ++ (']' :: (':' :: (ws2 ++ rest)))))).getD
          (ident.length + 1 + j) ' ' = pid.getD j ' ' := by
        rw [hassoc4, show ident.length + 1 + j = (ident ++ ['[']).length + j by
          rw [hlen4], getD_append_plus]
        exact getD_append_left _ _ _ _ hj
      rw [e1]
      exact hpb _ (getD_mem _ _ _ hj)
  have hdropL : (ident ++ ('[' :: (pid ++ (']' :: (':' :: (ws2 ++ rest)))))).drop
      (ident.length + pid.length + 3) = ws2 ++ rest := by
    rw [hassoc1]
    exact drop_append_len _ _ _ (by
      simp only [List.length_append, List.length_cons, List.length_nil]
      omega)
  have hdrop1 : (ident ++ ('[' :: (pid ++ (']' :: (':' :: (ws2 ++ rest)))))).drop
      (ident.length + 1) = pid ++ (']' :: (':' :: (ws2 ++ rest))) := by
    rw [hassoc4]
    exact drop_append_len _ _ _ (by simp)
  have hspn2 : strspn_ws (ws2 ++ rest) = ws2.length := strspn_ws_append _ _ hw hr
  have hdropF : (ident ++ ('[' :: (pid ++ (']' :: (':' :: (ws2 ++ rest)))))).drop
      (ident.length + pid.length + 3 + ws2.length) = rest := by
    rw [hassoc5]
    exact drop_append_len _ _ _ (by
      simp only [List.length_append, List.length_cons, List.length_nil]
      omega)
  have htakeI : (ident ++ ('[' :: (pid ++ (']' :: (':' :: (ws2 ++ rest)))))).take
      ident.length = ident :=
    take_append_len ident _ _ rfl
  have htakeP : (pid ++ (']' :: (':' :: (ws2 ++ rest)))).take pid.length = pid :=
    take_append_len pid _ _ rfl
  simp only [syslog_parse_identifier]
  rw [h0, List.drop_zero, htok]
  rw [show ident.length + pid.length + 3 - 1 = ident.length + pid.length + 2 by
    omega]
  rw [if_neg (by
    push_neg
    exact ⟨by omega, hcolon⟩)]
  rw [show ident.length + pid.length + 2 - 1 = ident.length + pid.length + 1 by
    omega]
  rw [if_pos ⟨by omega, hrb⟩, hfind]
  simp only [hdropL, hspn2, hdrop1, htakeI, hdropF]
  rw [show ident.length + pid.length + 2 - ident.length - 2 = pid.length by
    omega]
  rw [htakeP]

/-- **C6 (witness).** The spec's example `"myapp[123]: hello"`: identifier
`"myapp"`, pid `"123"`, cursor at `"hello"`, 12 bytes consumed. -/
theorem C6_witness :
    syslog_parse_identifier ("myapp[123]: hello".toList) =
      ⟨"hello".toList, some "myapp".toList, some "123".toList, 12⟩ := by
  have h := C6_parse_identifier "myapp".toList "123".toList [' ']
    "hello".toList (by decide) (by decide) (by decide) (by decide)
    (by decide) (by intro h; exact absurd h (by decide))
  have e : "myapp".toList ++ ('[' :: ("123".toList ++ (']' :: (':' ::
      ([' '] ++ "hello".toList))))) = "myapp[123]: hello".toList := by decide
  rw [e] at h
  simpa using h
